import Mathlib

/-!
Verification of the Gallery Lifecycle & Quota Subsystem of the
gallery worker (source: src/_worker.js).

The worker's handlers are shallowly embedded as pure Lean functions.
The Cloudflare KV store is modelled by `KVState` (separate typed maps for
the "gallery:" and "quota:" key namespaces, which are disjoint by prefix);
KV write failures, which surface as thrown exceptions in the source, are
injected through a `KVFault` oracle.  Every store operation performed by
the create path is also recorded in an access trace (`List KVOp`) so that
"no store access" claims can be stated exactly.  Machine timestamps,
request origins and the generated fallback identifier are explicit
parameters, since the source obtains them from ambient platform state.
-/

namespace GalleryWorker

/-- JSON-ish scalar value, the granularity needed for the `images` field:
the source stores whatever JSON values arrive in the array, verbatim. -/
inductive JVal where
  | jstr (s : String)
  | jnum (n : Int)
  | jbool (b : Bool)
  | jnull
deriving DecidableEq, Repr

/-- The `images` field of a create request as received from JSON:
absent (or a falsy non-array), present but not an array, or an array. -/
inductive ImagesField where
  | absent
  | notArray (v : JVal)
  | arr (l : List JVal)
deriving DecidableEq, Repr

/-- Optional theme colors, `{primary, accent}` (src/_worker.js line 132). -/
structure ThemeColors where
  primary : String
  accent : String
deriving DecidableEq, Repr

/-- The body of a create request (src/_worker.js handleCreateGallery). -/
structure CreateReq where
  title : Option String
  author : Option String
  images : ImagesField
  gallery_id : Option String
  theme_colors : Option ThemeColors
deriving DecidableEq, Repr

/-- A stored gallery record (src/_worker.js lines 125-133). -/
structure GalleryRecord where
  id : String
  title : String
  author : String
  images : List JVal
  created : Nat
  image_count : Nat
  theme_colors : Option ThemeColors
deriving DecidableEq, Repr

/-- JavaScript error object: `message` may be absent. -/
structure JsError where
  message : Option String
deriving DecidableEq, Repr

/-- Fault-injection oracle for the KV operations of the create path.
`galleryPutFault = some e` means the gallery record's own put throws `e`;
`quotaGetFault` / `quotaPutFault` make the quota counter's read / write
throw (src/_worker.js lines 141-161 and 308-314). -/
structure KVFault where
  galleryPutFault : Option JsError
  quotaGetFault : Bool
  quotaPutFault : Bool
deriving DecidableEq, Repr

/-- The fault-free environment: every KV operation succeeds. -/
def noFault : KVFault := ⟨none, false, false⟩

/-- KV store state.  Keys beginning with "gallery:" hold serialized gallery
records and keys beginning with "quota:" hold decimal counter strings, so
the two namespaces are modelled as separate typed maps over full keys. -/
structure KVState where
  galleries : String → Option GalleryRecord
  quotas : String → Option Nat

/-- One KV access of the create path, for the access trace. -/
inductive KVOp where
  | galleryGet (key : String)
  | galleryPut (key : String)
  | quotaGet (key : String)
  | quotaPut (key : String)
deriving DecidableEq, Repr

/-- JavaScript `x || d` for an optional string: absent and the empty
string are falsy, so both fall back to the default. -/
def jsOrStr : Option String → String → String
  | some s, d => if s = "" then d else s
  | none, d => d

/-- Identifier resolution: `data.gallery_id || generateGalleryId()`
(src/_worker.js line 108); `fresh` stands for the generated identifier. -/
def resolveId (req : CreateReq) (fresh : String) : String :=
  jsOrStr req.gallery_id fresh

/-- Full KV key of a gallery record. -/
def galleryKey (id : String) : String := "gallery:" ++ id

/-- Full KV key of a daily quota counter. -/
def quotaKey (dateKey : String) : String := "quota:" ++ dateKey

/-- The gallery's location URL (src/_worker.js lines 118 and 167). -/
def galleryUrl (origin id : String) : String := origin ++ "/gallery/" ++ id

/-- The record built by handleCreateGallery (src/_worker.js lines 125-133):
title and author default through JS falsy-or, images are taken verbatim,
created is the current timestamp and image_count caches the length. -/
def mkGalleryRecord (req : CreateReq) (id : String) (imgs : List JVal)
    (now : Nat) : GalleryRecord :=
  { id := id
    title := jsOrStr req.title "图集"
    author := jsOrStr req.author "未知"
    images := imgs
    created := now
    image_count := imgs.length
    theme_colors := req.theme_colors }

/-- Write a gallery record under a key. -/
def putGallery (st : KVState) (key : String) (r : GalleryRecord) : KVState :=
  { st with galleries := fun k => if k = key then some r else st.galleries k }

/-- Write a quota counter under a key. -/
def putQuota (st : KVState) (key : String) (n : Nat) : KVState :=
  { st with quotas := fun k => if k = key then some n else st.quotas k }

/-- List startsWith check over characters. -/
def isPrefList : List Char → List Char → Bool
  | [], _ => true
  | _ :: _, [] => false
  | a :: as, b :: bs => a == b && isPrefList as bs

/-- Substring containment over characters. -/
def hasSubstr (needle : List Char) : List Char → Bool
  | [] => isPrefList needle []
  | h :: t => isPrefList needle (h :: t) || hasSubstr needle t

/-- JavaScript `hay.includes(needle)` on strings. -/
def includesStr (hay needle : String) : Bool :=
  hasSubstr needle.toList hay.toList

/-- The classification guard of src/_worker.js line 152:
`kvError.message && kvError.message.includes('quota')`.
An absent message and the empty message are falsy. -/
def msgIndicatesQuota : JsError → Bool
  | ⟨none⟩ => false
  | ⟨some m⟩ => if m = "" then false else includesStr m "quota"

/-- The outcome of handleCreateGallery, one constructor per response shape
of src/_worker.js handleCreateGallery. -/
inductive CreateResult where
  /-- 400 with error INVALID_DATA (line 100). -/
  | invalidData
  /-- success true with message ALREADY_EXISTS and the location (line 115). -/
  | alreadyExists (gallery_id gallery_url : String)
  /-- 429 with error QUOTA_EXCEEDED (line 153). -/
  | quotaExceeded
  /-- 500 with error SERVER_ERROR, the outer catch (line 182). -/
  | serverError
  /-- success true with the new id and location (line 169). -/
  | created (id gallery_url : String)
deriving DecidableEq, Repr

/-- The success flag of the JSON response body. -/
def isSuccess : CreateResult → Bool
  | .alreadyExists _ _ => true
  | .created _ _ => true
  | _ => false

/-- The create path after validation succeeded, with `imgs` the non-empty
image array (src/_worker.js lines 107-178 plus incrementDailyQuota,
lines 308-314, which is inlined here because its exceptions propagate to
handleCreateGallery's outer catch). -/
def createMain (req : CreateReq) (imgs : List JVal) (fresh : String)
    (now : Nat) (origin dateKey : String) (fault : KVFault) (st : KVState) :
    CreateResult × KVState × List KVOp :=
  let id := resolveId req fresh
  let gkey := galleryKey id
  match st.galleries gkey with
  | some _ =>
      -- gallery already exists: return immediately, nothing written
      (.alreadyExists id (galleryUrl origin id), st, [KVOp.galleryGet gkey])
  | none =>
      let record := mkGalleryRecord req id imgs now
      match fault.galleryPutFault with
      | some err =>
          -- KV put threw: classify quota errors, rethrow the rest (caught
          -- by the outer catch as SERVER_ERROR)
          if msgIndicatesQuota err then
            (.quotaExceeded, st, [KVOp.galleryGet gkey, KVOp.galleryPut gkey])
          else
            (.serverError, st, [KVOp.galleryGet gkey, KVOp.galleryPut gkey])
      | none =>
          let st1 := putGallery st gkey record
          let qkey := quotaKey dateKey
          -- incrementDailyQuota: read current counter, write current+1.
          -- It is not wrapped in a try, so a thrown error propagates to
          -- the outer catch and the response is SERVER_ERROR.
          if fault.quotaGetFault then
            (.serverError, st1,
              [KVOp.galleryGet gkey, KVOp.galleryPut gkey, KVOp.quotaGet qkey])
          else
            let current := (st1.quotas qkey).getD 0
            if fault.quotaPutFault then
              (.serverError, st1,
                [KVOp.galleryGet gkey, KVOp.galleryPut gkey,
                 KVOp.quotaGet qkey, KVOp.quotaPut qkey])
            else
              (.created id (galleryUrl origin id),
               putQuota st1 qkey (current + 1),
               [KVOp.galleryGet gkey, KVOp.galleryPut gkey,
                KVOp.quotaGet qkey, KVOp.quotaPut qkey])

/-- handleCreateGallery (src/_worker.js lines 94-188).  The validation of
lines 98-105 rejects an absent field, a non-array field and the empty
array, before any store access; otherwise the main path runs. -/
def handleCreateGallery (req : CreateReq) (fresh : String) (now : Nat)
    (origin dateKey : String) (fault : KVFault) (st : KVState) :
    CreateResult × KVState × List KVOp :=
  match req.images with
  | ImagesField.arr (i0 :: rest) =>
      createMain req (i0 :: rest) fresh now origin dateKey fault st
  | _ => (CreateResult.invalidData, st, [])

/-- The read performed by handleViewGallery and handleCheckGallery
(src/_worker.js lines 199 and 69): fetch the record stored under
"gallery:" ++ id, or none. -/
def getGallery (st : KVState) (id : String) : Option GalleryRecord :=
  st.galleries (galleryKey id)

/-! ### Quota read (src/_worker.js handleQuotaCheck, lines 263-287) -/

/-- The JSON body returned by handleQuotaCheck.  `percentage` is the
string produced by `toFixed(1)`; `remaining` is an integer because the
source computes `Math.max(0, 1000 - todayCount)` over numbers. -/
structure QuotaInfo where
  date : String
  used : Nat
  limit : Nat
  remaining : Int
  percentage : String
  warning : Bool
deriving DecidableEq, Repr

/-- Render a quantity of tenths as a one-decimal string, the exact value
of JavaScript's `toFixed(1)` on a number that is a whole number of tenths
(for an integer count `k`, `(k/1000)*100 = k/10` is `k` tenths, and the
double rounding error is far below half a tenth, so `toFixed(1)` prints
the exact tenths). -/
def fixed1 (tenths : Nat) : String :=
  toString (tenths / 10) ++ "." ++ toString (tenths % 10)

/-- handleQuotaCheck's quota computation (src/_worker.js lines 272-282),
after the optional bearer-token check passed.  `dateKey` stands for
`getDateKey()` (the current UTC day, ambient real time) and `stored` for
the counter string under the day's key: the source's
`parseInt(await env.KV.get(todayKey) || '0')` yields the stored counter,
or 0 when the key is absent, because counters are always written as
decimal strings by incrementDailyQuota. -/
def handleQuotaCheck (dateKey : String) (stored : Option Nat) : QuotaInfo :=
  let todayCount := stored.getD 0
  { date := dateKey
    used := todayCount
    limit := 1000
    remaining := max 0 (1000 - (todayCount : Int))
    percentage := fixed1 ((todayCount * 100 * 10) / 1000)
    warning := decide (980 ≤ todayCount) }

/-! ### Gallery plaza (src/_worker.js handleGalleryPlaza, lines 220-260) -/

/-- A value parsed from a stored gallery key by the plaza's JSON reads.
Arbitrary JSON may be stored, so the fields the listing logic inspects
(`id` for the filter, `created` for the sort key) are optional; `some ""`
models a present-but-empty id, which is falsy in JavaScript. -/
structure PlazaEntry where
  id : Option String
  created : Option Nat
deriving DecidableEq, Repr

/-- One per-key read of the plaza: `Except.error` models a rejected
`env.KV.get(key, 'json')` promise (a store-level failure, or stored data
that is not valid JSON, which makes the json-typed get throw);
`Except.ok none` a missing record (null); `Except.ok (some e)` a parsed
record. -/
abbrev PlazaRead := Except Unit (Option PlazaEntry)

/-- `Promise.all` over the per-key reads: rejects when any read rejects,
otherwise collects all values in order. -/
def promiseAll : List PlazaRead → Option (List (Option PlazaEntry))
  | [] => some []
  | Except.error _ :: _ => none
  | Except.ok v :: rest => (promiseAll rest).map (fun l => v :: l)

/-- The filter `g && g.id` of src/_worker.js line 237 applied to a
non-null entry: the id must be present and non-empty (truthy). -/
def idTruthy (g : PlazaEntry) : Bool :=
  match g.id with
  | none => false
  | some s => !(s == "")

/-- Comparison underlying the sort of src/_worker.js line 238,
`(b.created || 0) - (a.created || 0)`: descending by created, with a
missing (or zero, falsy) created treated as 0. -/
def plazaOrd (a b : PlazaEntry) : Prop :=
  b.created.getD 0 ≤ a.created.getD 0

instance : DecidableRel plazaOrd := fun _ _ => Nat.decLe _ _

instance : IsTotal PlazaEntry plazaOrd :=
  ⟨fun a b => Nat.le_total (b.created.getD 0) (a.created.getD 0)⟩

instance : IsTrans PlazaEntry plazaOrd :=
  ⟨fun _ _ _ hab hbc => Nat.le_trans hbc hab⟩

/-- The sort of src/_worker.js line 238 (a stable comparison sort; the
ordering property is what the spec claims, so any stable sort embeds it). -/
def sortGalleries (l : List PlazaEntry) : List PlazaEntry :=
  l.insertionSort plazaOrd

/-- handleGalleryPlaza's listing logic (src/_worker.js lines 229-241),
given the outcome of the per-key reads for the listed keys: await all
reads via `Promise.all` (a single rejection propagates to the outer catch,
which renders the error page, modelled as `Except.error ()`), drop null
entries and entries without a truthy id, and sort by created descending. -/
def handleGalleryPlaza (reads : List PlazaRead) :
    Except Unit (List PlazaEntry) :=
  match promiseAll reads with
  | none => Except.error ()
  | some galleries =>
      Except.ok (sortGalleries ((galleries.filterMap id).filter idTruthy))

/-! ### Layout selection (src/_worker.js lines 1478-1562) -/

/-- Wrap an integer to the 32-bit signed range, JavaScript's ToInt32. -/
def toSigned32 (n : Int) : Int :=
  let m := n % 4294967296
  if m < 2147483648 then m else m - 4294967296

/-- One iteration of simpleHash's loop (src/_worker.js lines 1557-1559):
`hash = ((hash << 5) - hash) + char` followed by `hash = hash & hash`.
The shift wraps its 32-bit result, the subtraction and addition are exact
double arithmetic, and `hash & hash` is ToInt32 of the sum. -/
def hashStep (hash : Int) (c : Char) : Int :=
  toSigned32 (toSigned32 (hash * 32) - hash + (c.toNat : Int))

/-- simpleHash (src/_worker.js lines 1554-1562): fold the step over the
characters starting from 0, then `Math.abs`.  `Char.toNat` models
`charCodeAt` (they agree on all code points below 0x10000; gallery
identifiers are base-36 ASCII). -/
def simpleHash (str : String) : Nat :=
  (str.toList.foldl hashStep 0).natAbs

/-- Hash written exactly as the spec words it, for the refinement proof:
for each character, hash = hash*31 + charCode, wrapped to the 32-bit
signed range. -/
def specHash31 (str : String) : Int :=
  str.toList.foldl (fun h c => toSigned32 (h * 31 + (c.toNat : Int))) 0

/-- The five cover layout kinds plus the single-image one. -/
inductive LayoutKind where
  | single
  | split
  | featured
  | grid
  | hero
  | triple
deriving DecidableEq, Repr

/-- A layout choice: the layout kind and how many images it uses. -/
structure LayoutChoice where
  layout : LayoutKind
  imageCount : Nat
deriving DecidableEq, Repr

/-- getSmartLayout (src/_worker.js lines 1519-1551): 1 and 2 images get
fixed layouts; otherwise the id's hash modulo 5 picks one of five layouts
(the final case is the switch's default, unreachable since the index is a
remainder modulo 5). -/
def getSmartLayout (totalCount : Nat) (galleryId : String) : LayoutChoice :=
  if totalCount = 1 then ⟨.single, 1⟩
  else if totalCount = 2 then ⟨.split, 2⟩
  else
    match simpleHash galleryId % 5 with
    | 0 => ⟨.split, 2⟩
    | 1 => ⟨.featured, 3⟩
    | 2 => ⟨.grid, 4⟩
    | 3 => ⟨.hero, 1⟩
    | 4 => ⟨.triple, 3⟩
    | _ => ⟨.grid, 4⟩

/-- The layout table exactly as the claim words it: results 0..4 map in
fixed order to split (2 images), featured (3), grid (4), hero (1),
triple (3).  Only arguments below 5 arise (the index is taken modulo 5). -/
def specLayoutTable : Nat → LayoutChoice
  | 0 => ⟨.split, 2⟩
  | 1 => ⟨.featured, 3⟩
  | 2 => ⟨.grid, 4⟩
  | 3 => ⟨.hero, 1⟩
  | _ => ⟨.triple, 3⟩

/-- The cover image selection of generateGalleryCard (src/_worker.js
lines 1479-1490): `count = image_count || images.length` (zero or absent
image_count is falsy and falls back to the length), then
`images.slice(0, layout.imageCount)`, which never reads past the end. -/
def generateGalleryCardCover (image_count : Nat) (images : List String)
    (id : String) : List String :=
  let count := if image_count = 0 then images.length else image_count
  images.take (getSmartLayout count id).imageCount

/-! ### Helper lemmas -/

theorem toSigned32_congr {a b : Int}
    (h : a % 4294967296 = b % 4294967296) : toSigned32 a = toSigned32 b := by
  unfold toSigned32
  rw [h]

theorem toSigned32_emod (a : Int) :
    toSigned32 a % 4294967296 = a % 4294967296 := by
  unfold toSigned32
  dsimp only
  split <;> omega

theorem hashStep_eq (h : Int) (c : Char) :
    hashStep h c = toSigned32 (h * 31 + (c.toNat : Int)) := by
  unfold hashStep
  apply toSigned32_congr
  have h1 := toSigned32_emod (h * 32)
  omega

theorem foldl_hashStep_eq (l : List Char) (a : Int) :
    l.foldl hashStep a =
      l.foldl (fun h c => toSigned32 (h * 31 + (c.toNat : Int))) a := by
  induction l generalizing a with
  | nil => rfl
  | cons c t ih =>
      simp only [List.foldl]
      rw [hashStep_eq]
      exact ih _

theorem simpleHash_eq_specHash31 (id : String) :
    simpleHash id = (specHash31 id).natAbs := by
  unfold simpleHash specHash31
  rw [foldl_hashStep_eq]

theorem jsOrStr_some_ne {s : String} (d : String) (h : s ≠ "") :
    jsOrStr (some s) d = s := by
  simp [jsOrStr, h]

theorem handleCreate_arr {req : CreateReq} {imgs : List JVal}
    (h : req.images = ImagesField.arr imgs) (hne : imgs ≠ [])
    (fresh : String) (now : Nat) (origin dateKey : String)
    (fault : KVFault) (st : KVState) :
    handleCreateGallery req fresh now origin dateKey fault st =
      createMain req imgs fresh now origin dateKey fault st := by
  cases imgs with
  | nil => exact absurd rfl hne
  | cons i t =>
      unfold handleCreateGallery
      rw [h]

theorem createMain_existing {st : KVState} {req : CreateReq}
    {fresh : String} {r : GalleryRecord}
    (hex : st.galleries (galleryKey (resolveId req fresh)) = some r)
    (imgs : List JVal) (now : Nat) (origin dateKey : String)
    (fault : KVFault) :
    createMain req imgs fresh now origin dateKey fault st =
      (CreateResult.alreadyExists (resolveId req fresh)
          (galleryUrl origin (resolveId req fresh)), st,
        [KVOp.galleryGet (galleryKey (resolveId req fresh))]) := by
  unfold createMain
  dsimp only
  rw [hex]

theorem createMain_new {st : KVState} {req : CreateReq} {fresh : String}
    (hnone : st.galleries (galleryKey (resolveId req fresh)) = none)
    (imgs : List JVal) (now : Nat) (origin dateKey : String) :
    createMain req imgs fresh now origin dateKey noFault st =
      (CreateResult.created (resolveId req fresh)
          (galleryUrl origin (resolveId req fresh)),
        putQuota
          (putGallery st (galleryKey (resolveId req fresh))
            (mkGalleryRecord req (resolveId req fresh) imgs now))
          (quotaKey dateKey) ((st.quotas (quotaKey dateKey)).getD 0 + 1),
        [KVOp.galleryGet (galleryKey (resolveId req fresh)),
         KVOp.galleryPut (galleryKey (resolveId req fresh)),
         KVOp.quotaGet (quotaKey dateKey),
         KVOp.quotaPut (quotaKey dateKey)]) := by
  unfold createMain
  dsimp only
  rw [hnone]
  rfl

theorem createMain_putFault {st : KVState} {req : CreateReq}
    {fresh : String}
    (hnone : st.galleries (galleryKey (resolveId req fresh)) = none)
    (imgs : List JVal) (now : Nat) (origin dateKey : String)
    (err : JsError) (qg qp : Bool) :
    createMain req imgs fresh now origin dateKey ⟨some err, qg, qp⟩ st =
      (if msgIndicatesQuota err then CreateResult.quotaExceeded
        else CreateResult.serverError, st,
        [KVOp.galleryGet (galleryKey (resolveId req fresh)),
         KVOp.galleryPut (galleryKey (resolveId req fresh))]) := by
  unfold createMain
  dsimp only
  rw [hnone]
  dsimp only
  split <;> rfl

theorem createMain_quotaFault {st : KVState} {req : CreateReq}
    {fresh : String}
    (hnone : st.galleries (galleryKey (resolveId req fresh)) = none)
    (imgs : List JVal) (now : Nat) (origin dateKey : String)
    {qg qp : Bool} (hq : qg = true ∨ qp = true) :
    createMain req imgs fresh now origin dateKey ⟨none, qg, qp⟩ st =
      (CreateResult.serverError,
        putGallery st (galleryKey (resolveId req fresh))
          (mkGalleryRecord req (resolveId req fresh) imgs now),
        if qg then
          [KVOp.galleryGet (galleryKey (resolveId req fresh)),
           KVOp.galleryPut (galleryKey (resolveId req fresh)),
           KVOp.quotaGet (quotaKey dateKey)]
        else
          [KVOp.galleryGet (galleryKey (resolveId req fresh)),
           KVOp.galleryPut (galleryKey (resolveId req fresh)),
           KVOp.quotaGet (quotaKey dateKey),
           KVOp.quotaPut (quotaKey dateKey)]) := by
  unfold createMain
  dsimp only
  rw [hnone]
  cases qg with
  | true => rfl
  | false =>
      cases qp with
      | true => rfl
      | false => rcases hq with h | h <;> exact absurd h (by simp)

theorem createMain_fst_ne_invalid (req : CreateReq) (imgs : List JVal)
    (fresh : String) (now : Nat) (origin dateKey : String)
    (fault : KVFault) (st : KVState) :
    (createMain req imgs fresh now origin dateKey fault st).1 ≠
      CreateResult.invalidData := by
  unfold createMain
  dsimp only
  repeat' split
  all_goals simp

theorem putGallery_get_same (st : KVState) (key : String)
    (r : GalleryRecord) : (putGallery st key r).galleries key = some r := by
  simp [putGallery]

theorem putQuota_galleries (st : KVState) (key : String) (n : Nat) :
    (putQuota st key n).galleries = st.galleries := rfl

/-! ### Concrete fixtures for witnesses and counterexamples -/

/-- The empty store. -/
def emptyKV : KVState := ⟨fun _ => none, fun _ => none⟩

/-- A record already stored under id "g1". -/
def recG1 : GalleryRecord :=
  { id := "g1", title := "t", author := "a", images := [.jstr "x"],
    created := 42, image_count := 1, theme_colors := none }

/-- A store holding only recG1 under its gallery key. -/
def stWithG1 : KVState :=
  ⟨fun k => if k = "gallery:g1" then some recG1 else none, fun _ => none⟩

/-- A create request aimed at the already-stored id "g1". -/
def reqG1 : CreateReq :=
  { title := some "T2", author := none, images := .arr [.jstr "z"],
    gallery_id := some "g1", theme_colors := none }

/-- An ordinary valid create request with explicit id "gid". -/
def reqU : CreateReq :=
  { title := some "T", author := some "A",
    images := .arr [.jstr "u1", .jstr "u2"],
    gallery_id := some "gid", theme_colors := none }

/-- A second request against the same id "gid", different payload. -/
def reqU2 : CreateReq :=
  { title := some "other", author := some "B", images := .arr [.jstr "w"],
    gallery_id := some "gid", theme_colors := none }

/-- A valid request whose title is present but empty. -/
def reqEmptyTitle : CreateReq :=
  { title := some "", author := some "A", images := .arr [.jstr "u"],
    gallery_id := some "g", theme_colors := none }

/-- A valid request whose image elements are not (non-empty) strings. -/
def reqMixed : CreateReq :=
  { title := none, author := none, images := .arr [.jnum 0, .jstr ""],
    gallery_id := some "gm", theme_colors := none }

/-- A request without an images field. -/
def reqNoImages : CreateReq :=
  { title := some "T", author := none, images := .absent,
    gallery_id := none, theme_colors := none }

/-- Plaza entries for concrete listings. -/
def entryA : PlazaEntry := ⟨some "a", some 100⟩

def entryB : PlazaEntry := ⟨some "b", some 300⟩

def entryC : PlazaEntry := ⟨some "c", some 200⟩

def entryNoId : PlazaEntry := ⟨none, some 500⟩

/-! ### Claim theorems -/

/-- Claim C6: the layout selector is a pure function of (id, imageCount):
one image gives single (1 image), two give split (2); for imageCount at
least 3 it hashes the id with the 32-bit signed hash*31+charCode hash,
takes absolute value mod 5 and maps 0..4 in fixed order to split (2),
featured (3), grid (4), hero (1), triple (3); identical arguments give
identical results. -/
theorem layout_selector_spec :
    (∀ id, getSmartLayout 1 id = ⟨.single, 1⟩)
    ∧ (∀ id, getSmartLayout 2 id = ⟨.split, 2⟩)
    ∧ (∀ id, simpleHash id = (specHash31 id).natAbs)
    ∧ (∀ id n, 3 ≤ n →
        getSmartLayout n id = specLayoutTable ((specHash31 id).natAbs % 5))
    ∧ (∀ id n, getSmartLayout n id = getSmartLayout n id) := by
  refine ⟨fun id => rfl, fun id => rfl, simpleHash_eq_specHash31, ?_,
    fun id n => rfl⟩
  intro id n hn
  have h1 : ¬ n = 1 := by omega
  have h2 : ¬ n = 2 := by omega
  unfold getSmartLayout
  rw [if_neg h1, if_neg h2, simpleHash_eq_specHash31]
  generalize hg : (specHash31 id).natAbs % 5 = k
  have h5 : k < 5 := by
    rw [← hg]
    exact Nat.mod_lt _ (by omega)
  interval_cases k <;> rfl

/-- Witness for C6 at concrete inputs. -/
theorem layout_selector_spec_witness :
    getSmartLayout 3 "abc" = specLayoutTable ((specHash31 "abc").natAbs % 5)
    ∧ getSmartLayout 1 "abc" = ⟨.single, 1⟩ :=
  ⟨layout_selector_spec.2.2.2.1 "abc" 3 (by decide),
   layout_selector_spec.1 "abc"⟩

/-- Claim C7: cover rendering never uses more images than the gallery
has: the selected cover image list is a prefix of the gallery's images,
its length is the minimum of the layout's required count and the number
of available images, and when the layout requires more images than are
available the used count is clamped to the available count. -/
theorem cover_clamped :
    ∀ (images : List String) (id : String) (ic : Nat),
      ic = images.length → 1 ≤ images.length →
      (generateGalleryCardCover ic images id).length =
          min (getSmartLayout images.length id).imageCount images.length
      ∧ (generateGalleryCardCover ic images id).length ≤ images.length
      ∧ (∃ rest, generateGalleryCardCover ic images id ++ rest = images)
      ∧ (images.length < (getSmartLayout images.length id).imageCount →
          (generateGalleryCardCover ic images id).length = images.length) := by
  intro images id ic hic h1
  subst hic
  unfold generateGalleryCardCover
  have hcount :
      (if images.length = 0 then images.length else images.length) =
        images.length := by
    split <;> rfl
  rw [hcount]
  refine ⟨List.length_take _ _, ?_,
    ⟨images.drop (getSmartLayout images.length id).imageCount,
      List.take_append_drop _ _⟩, ?_⟩
  · rw [List.length_take]; omega
  · intro h; rw [List.length_take]; omega

/-- Witness for C7 at a three-image gallery whose hash picks a 3-image
layout table entry. -/
theorem cover_clamped_witness :
    (generateGalleryCardCover 3 ["a", "b", "c"] "abc").length =
        min (getSmartLayout (["a", "b", "c"] : List String).length "abc").imageCount
          (["a", "b", "c"] : List String).length
    ∧ (generateGalleryCardCover 3 ["a", "b", "c"] "abc").length ≤
        (["a", "b", "c"] : List String).length
    ∧ (∃ rest, generateGalleryCardCover 3 ["a", "b", "c"] "abc" ++ rest =
        ["a", "b", "c"])
    ∧ ((["a", "b", "c"] : List String).length <
          (getSmartLayout (["a", "b", "c"] : List String).length "abc").imageCount →
        (generateGalleryCardCover 3 ["a", "b", "c"] "abc").length =
          (["a", "b", "c"] : List String).length) :=
  cover_clamped ["a", "b", "c"] "abc" 3 (by decide) (by decide)

/-- Claim C8: for a stored counter value k of the current day (0 when the
key is absent), the quota read reports the day key, used = k,
limit = 1000, remaining = max 0 (1000 - k), the percentage k/1000*100
rendered to one decimal (k tenths, exactly), and warning true iff
k is at least 980. -/
theorem quota_read_spec :
    ∀ (dateKey : String) (stored : Option Nat),
      (handleQuotaCheck dateKey stored).date = dateKey
      ∧ (handleQuotaCheck dateKey stored).used = stored.getD 0
      ∧ (handleQuotaCheck dateKey stored).limit = 1000
      ∧ (handleQuotaCheck dateKey stored).remaining =
          max 0 (1000 - ((stored.getD 0 : Nat) : Int))
      ∧ (handleQuotaCheck dateKey stored).percentage = fixed1 (stored.getD 0)
      ∧ ((stored.getD 0 : ℚ) / 1000 * 100 * 10 = ((stored.getD 0 : Nat) : ℚ))
      ∧ ((handleQuotaCheck dateKey stored).warning = true ↔
          980 ≤ stored.getD 0) := by
  intro dateKey stored
  refine ⟨rfl, rfl, rfl, rfl, ?_, by ring, ?_⟩
  · show fixed1 (stored.getD 0 * 100 * 10 / 1000) = fixed1 (stored.getD 0)
    congr 1
    have h : stored.getD 0 * 100 * 10 = stored.getD 0 * 1000 := by ring
    rw [h, Nat.mul_div_cancel _ (by omega)]
  · show decide (980 ≤ stored.getD 0) = true ↔ 980 ≤ stored.getD 0
    exact decide_eq_true_iff

/-- Claim C1: a create request whose resolved identifier already has a
record returns success with status ALREADY_EXISTS and the existing
record's location, leaves the whole store (the record's every field and
the quota counters) unchanged and performs no write (the access trace is
a single gallery read); and after two create calls with the same explicit
gallery_id, the stored record reflects only the first call's data. -/
theorem create_already_exists_frame :
    (∀ (req : CreateReq) (fresh : String) (now : Nat)
        (origin dateKey : String) (fault : KVFault) (st : KVState)
        (imgs : List JVal) (r : GalleryRecord),
        req.images = ImagesField.arr imgs → imgs ≠ [] →
        st.galleries (galleryKey (resolveId req fresh)) = some r →
        handleCreateGallery req fresh now origin dateKey fault st =
          (CreateResult.alreadyExists (resolveId req fresh)
              (galleryUrl origin (resolveId req fresh)), st,
            [KVOp.galleryGet (galleryKey (resolveId req fresh))])
        ∧ isSuccess
            (handleCreateGallery req fresh now origin dateKey fault st).1 =
            true)
    ∧ (∀ (req1 req2 : CreateReq) (g : String) (fresh1 fresh2 : String)
        (now1 now2 : Nat) (origin1 origin2 d1 d2 : String)
        (fault2 : KVFault) (st : KVState) (imgs1 imgs2 : List JVal),
        req1.gallery_id = some g → g ≠ "" →
        req2.gallery_id = some g →
        req1.images = ImagesField.arr imgs1 → imgs1 ≠ [] →
        req2.images = ImagesField.arr imgs2 → imgs2 ≠ [] →
        st.galleries (galleryKey g) = none →
        (handleCreateGallery req2 fresh2 now2 origin2 d2 fault2
            (handleCreateGallery req1 fresh1 now1 origin1 d1 noFault
              st).2.1).1 =
          CreateResult.alreadyExists g (galleryUrl origin2 g)
        ∧ (handleCreateGallery req2 fresh2 now2 origin2 d2 fault2
            (handleCreateGallery req1 fresh1 now1 origin1 d1 noFault
              st).2.1).2.1.galleries (galleryKey g) =
          some (mkGalleryRecord req1 g imgs1 now1)
        ∧ (handleCreateGallery req2 fresh2 now2 origin2 d2 fault2
            (handleCreateGallery req1 fresh1 now1 origin1 d1 noFault
              st).2.1).2.1 =
          (handleCreateGallery req1 fresh1 now1 origin1 d1 noFault
            st).2.1) := by
  constructor
  · intro req fresh now origin dateKey fault st imgs r himg hne hex
    rw [handleCreate_arr himg hne, createMain_existing hex]
    exact ⟨rfl, rfl⟩
  · intro req1 req2 g fresh1 fresh2 now1 now2 origin1 origin2 d1 d2
      fault2 st imgs1 imgs2 hid1 hg hid2 himg1 hne1 himg2 hne2 hnone
    have hres1 : resolveId req1 fresh1 = g := by
      rw [resolveId, hid1, jsOrStr_some_ne _ hg]
    have hres2 : resolveId req2 fresh2 = g := by
      rw [resolveId, hid2, jsOrStr_some_ne _ hg]
    have hnone1 : st.galleries (galleryKey (resolveId req1 fresh1)) = none := by
      rw [hres1]; exact hnone
    have h1 : handleCreateGallery req1 fresh1 now1 origin1 d1 noFault st =
        (CreateResult.created (resolveId req1 fresh1)
            (galleryUrl origin1 (resolveId req1 fresh1)),
          putQuota
            (putGallery st (galleryKey (resolveId req1 fresh1))
              (mkGalleryRecord req1 (resolveId req1 fresh1) imgs1 now1))
            (quotaKey d1) ((st.quotas (quotaKey d1)).getD 0 + 1),
          [KVOp.galleryGet (galleryKey (resolveId req1 fresh1)),
           KVOp.galleryPut (galleryKey (resolveId req1 fresh1)),
           KVOp.quotaGet (quotaKey d1),
           KVOp.quotaPut (quotaKey d1)]) := by
      rw [handleCreate_arr himg1 hne1, createMain_new hnone1]
    have hst1 : (handleCreateGallery req1 fresh1 now1 origin1 d1 noFault
        st).2.1.galleries (galleryKey g) =
        some (mkGalleryRecord req1 g imgs1 now1) := by
      rw [h1, hres1]
      simp [putQuota, putGallery]
    have hex2 : (handleCreateGallery req1 fresh1 now1 origin1 d1 noFault
        st).2.1.galleries (galleryKey (resolveId req2 fresh2)) =
        some (mkGalleryRecord req1 g imgs1 now1) := by
      rw [hres2]; exact hst1
    have h2 := handleCreate_arr himg2 hne2 fresh2 now2 origin2 d2 fault2
      (handleCreateGallery req1 fresh1 now1 origin1 d1 noFault st).2.1
    rw [h2, createMain_existing hex2, hres2]
    exact ⟨rfl, hst1, rfl⟩

/-- Witness for C1: the first part at the prefilled store stWithG1, the
second part as two consecutive calls on the empty store. -/
theorem create_already_exists_frame_witness :
    (handleCreateGallery reqG1 "fr" 9 "o" "d" noFault stWithG1 =
        (CreateResult.alreadyExists (resolveId reqG1 "fr")
            (galleryUrl "o" (resolveId reqG1 "fr")), stWithG1,
          [KVOp.galleryGet (galleryKey (resolveId reqG1 "fr"))])
      ∧ isSuccess
          (handleCreateGallery reqG1 "fr" 9 "o" "d" noFault stWithG1).1 =
          true)
    ∧ ((handleCreateGallery reqU2 "f2" 8 "o2" "d2" noFault
          (handleCreateGallery reqU "f1" 7 "o1" "d1" noFault
            emptyKV).2.1).1 =
        CreateResult.alreadyExists "gid" (galleryUrl "o2" "gid")
      ∧ (handleCreateGallery reqU2 "f2" 8 "o2" "d2" noFault
          (handleCreateGallery reqU "f1" 7 "o1" "d1" noFault
            emptyKV).2.1).2.1.galleries (galleryKey "gid") =
        some (mkGalleryRecord reqU "gid"
          [JVal.jstr "u1", JVal.jstr "u2"] 7)
      ∧ (handleCreateGallery reqU2 "f2" 8 "o2" "d2" noFault
          (handleCreateGallery reqU "f1" 7 "o1" "d1" noFault
            emptyKV).2.1).2.1 =
        (handleCreateGallery reqU "f1" 7 "o1" "d1" noFault
          emptyKV).2.1) :=
  ⟨create_already_exists_frame.1 reqG1 "fr" 9 "o" "d" noFault stWithG1
      [JVal.jstr "z"] recG1 rfl (by decide) (by decide),
    create_already_exists_frame.2 reqU reqU2 "gid" "f1" "f2" 7 8 "o1" "o2"
      "d1" "d2" noFault emptyKV [JVal.jstr "u1", JVal.jstr "u2"]
      [JVal.jstr "w"] rfl (by decide) rfl rfl (by decide) rfl (by decide)
      rfl⟩

/-- Claim C5: a create request whose images field is absent, not an
array, or an empty array fails with INVALID_DATA and performs no store
access at all: the state is returned untouched and the access trace is
empty. -/
theorem create_invalid_no_store :
    ∀ (req : CreateReq) (fresh : String) (now : Nat)
      (origin dateKey : String) (fault : KVFault) (st : KVState),
      (req.images = ImagesField.absent
        ∨ (∃ v, req.images = ImagesField.notArray v)
        ∨ req.images = ImagesField.arr []) →
      handleCreateGallery req fresh now origin dateKey fault st =
        (CreateResult.invalidData, st, []) := by
  intro req fresh now origin dateKey fault st h
  unfold handleCreateGallery
  rcases h with h | ⟨v, h⟩ | h <;> rw [h]

/-- Witness for C5 at a request without an images field. -/
theorem create_invalid_no_store_witness :
    handleCreateGallery reqNoImages "f" 3 "o" "d" noFault emptyKV =
      (CreateResult.invalidData, emptyKV, []) :=
  create_invalid_no_store reqNoImages "f" 3 "o" "d" noFault emptyKV
    (Or.inl rfl)

/-- Claim C10: create's validation checks exactly that images is present,
an array, and non-empty: INVALID_DATA is returned iff images is not a
non-empty array; and for any non-empty array, whatever its element
values (non-strings and empty strings included), the elements are stored
verbatim in the record's images field. -/
theorem create_validation_exact :
    (∀ (req : CreateReq) (fresh : String) (now : Nat)
        (origin dateKey : String) (fault : KVFault) (st : KVState),
        (handleCreateGallery req fresh now origin dateKey fault st).1 =
            CreateResult.invalidData
          ↔ ¬ ∃ l, req.images = ImagesField.arr l ∧ l ≠ [])
    ∧ (∀ (req : CreateReq) (fresh : String) (now : Nat)
        (origin dateKey : String) (st : KVState) (l : List JVal),
        req.images = ImagesField.arr l → l ≠ [] →
        st.galleries (galleryKey (resolveId req fresh)) = none →
        (getGallery
            (handleCreateGallery req fresh now origin dateKey noFault
              st).2.1 (resolveId req fresh)).map GalleryRecord.images =
          some l) := by
  constructor
  · intro req fresh now origin dateKey fault st
    constructor
    · intro hres
      rintro ⟨l, hl, hlne⟩
      cases l with
      | nil => exact hlne rfl
      | cons i t =>
          rw [handleCreate_arr hl (by simp)] at hres
          exact createMain_fst_ne_invalid req (i :: t) fresh now origin
            dateKey fault st hres
    · intro hno
      cases himg : req.images with
      | absent => unfold handleCreateGallery; rw [himg]
      | notArray v => unfold handleCreateGallery; rw [himg]
      | arr l =>
          cases l with
          | nil => unfold handleCreateGallery; rw [himg]
          | cons i t =>
              exact absurd ⟨i :: t, himg, by simp⟩ hno
  · intro req fresh now origin dateKey st l hl hlne hnone
    rw [handleCreate_arr hl hlne, createMain_new hnone]
    simp [getGallery, putQuota, putGallery, mkGalleryRecord]

/-- Witness for C10: the verbatim-storage part at a request whose image
elements are a number and an empty string. -/
theorem create_validation_exact_witness :
    (getGallery
        (handleCreateGallery reqMixed "f" 11 "o" "d" noFault
          emptyKV).2.1 (resolveId reqMixed "f")).map GalleryRecord.images =
      some [JVal.jnum 0, JVal.jstr ""] :=
  create_validation_exact.2 reqMixed "f" 11 "o" "d" emptyKV
    [JVal.jnum 0, JVal.jstr ""] rfl (by decide) rfl

/-- Claim C9: when the gallery record's own store write fails, create
does not report success, and the failure is classified: QUOTA_EXCEEDED
iff the thrown error's message indicates a quota-related error (contains
the substring quota), otherwise the generic SERVER_ERROR. -/
theorem create_put_failure_classified :
    (∀ (req : CreateReq) (fresh : String) (now : Nat)
        (origin dateKey : String) (st : KVState) (imgs : List JVal)
        (err : JsError) (qg qp : Bool),
        req.images = ImagesField.arr imgs → imgs ≠ [] →
        st.galleries (galleryKey (resolveId req fresh)) = none →
        isSuccess
            (handleCreateGallery req fresh now origin dateKey
              ⟨some err, qg, qp⟩ st).1 = false
        ∧ ((handleCreateGallery req fresh now origin dateKey
              ⟨some err, qg, qp⟩ st).1 = CreateResult.quotaExceeded
            ↔ msgIndicatesQuota err = true)
        ∧ (msgIndicatesQuota err = false →
            (handleCreateGallery req fresh now origin dateKey
              ⟨some err, qg, qp⟩ st).1 = CreateResult.serverError))
    ∧ (∀ m, msgIndicatesQuota ⟨some m⟩ = includesStr m "quota") := by
  constructor
  · intro req fresh now origin dateKey st imgs err qg qp himg hne hnone
    rw [handleCreate_arr himg hne, createMain_putFault hnone]
    cases hq : msgIndicatesQuota err with
    | true => simp [hq, isSuccess]
    | false => simp [hq, isSuccess]
  · intro m
    by_cases hm : m = ""
    · subst hm; rfl
    · simp [msgIndicatesQuota, hm]

/-- Witness for C9 at a quota-flavoured error message. -/
theorem create_put_failure_classified_witness :
    isSuccess
        (handleCreateGallery reqU "f" 5 "o" "d"
          ⟨some ⟨some "KV put failed: daily quota exceeded"⟩, false, false⟩
          emptyKV).1 = false
    ∧ ((handleCreateGallery reqU "f" 5 "o" "d"
          ⟨some ⟨some "KV put failed: daily quota exceeded"⟩, false, false⟩
          emptyKV).1 = CreateResult.quotaExceeded
        ↔ msgIndicatesQuota
            ⟨some "KV put failed: daily quota exceeded"⟩ = true)
    ∧ (msgIndicatesQuota ⟨some "KV put failed: daily quota exceeded"⟩ =
          false →
        (handleCreateGallery reqU "f" 5 "o" "d"
          ⟨some ⟨some "KV put failed: daily quota exceeded"⟩, false, false⟩
          emptyKV).1 = CreateResult.serverError) :=
  create_put_failure_classified.1 reqU "f" 5 "o" "d" emptyKV
    [JVal.jstr "u1", JVal.jstr "u2"]
    ⟨some "KV put failed: daily quota exceeded"⟩ false false rfl
    (by decide) (by decide)

/-- Counterexample to C2 as stated: a request whose title is present but
empty is stored with the placeholder title, not with the request's title
value. -/
theorem create_then_get_counterexample :
    reqEmptyTitle.title = some ""
    ∧ isSuccess
        (handleCreateGallery reqEmptyTitle "f" 5 "o" "d" noFault
          emptyKV).1 = true
    ∧ (getGallery
          (handleCreateGallery reqEmptyTitle "f" 5 "o" "d" noFault
            emptyKV).2.1 "g").map GalleryRecord.title = some "图集"
    ∧ (some "图集" : Option String) ≠ some "" := by
  refine ⟨rfl, ?_, ?_, by decide⟩ <;> decide

/-- Claim C2 as amended: for a valid creation on a fresh identifier (all
store writes succeeding), create returns success and an immediately
following get returns the stored record, whose images are the request's
images in order, whose image_count is their length, and whose title and
author are the request's values when present and non-empty, and the
fixed placeholders when absent or empty. -/
theorem create_then_get_amended :
    ∀ (req : CreateReq) (fresh : String) (now : Nat)
      (origin dateKey : String) (st : KVState) (imgs : List JVal),
      req.images = ImagesField.arr imgs → imgs ≠ [] →
      st.galleries (galleryKey (resolveId req fresh)) = none →
      isSuccess
          (handleCreateGallery req fresh now origin dateKey noFault st).1 =
          true
      ∧ (handleCreateGallery req fresh now origin dateKey noFault st).1 =
          CreateResult.created (resolveId req fresh)
            (galleryUrl origin (resolveId req fresh))
      ∧ getGallery
            (handleCreateGallery req fresh now origin dateKey noFault
              st).2.1 (resolveId req fresh) =
          some (mkGalleryRecord req (resolveId req fresh) imgs now)
      ∧ (mkGalleryRecord req (resolveId req fresh) imgs now).images = imgs
      ∧ (mkGalleryRecord req (resolveId req fresh) imgs now).image_count =
          imgs.length
      ∧ (∀ t, req.title = some t → t ≠ "" →
          (mkGalleryRecord req (resolveId req fresh) imgs now).title = t)
      ∧ ((req.title = none ∨ req.title = some "") →
          (mkGalleryRecord req (resolveId req fresh) imgs now).title =
            "图集")
      ∧ (∀ a, req.author = some a → a ≠ "" →
          (mkGalleryRecord req (resolveId req fresh) imgs now).author = a)
      ∧ ((req.author = none ∨ req.author = some "") →
          (mkGalleryRecord req (resolveId req fresh) imgs now).author =
            "未知") := by
  intro req fresh now origin dateKey st imgs himg hne hnone
  rw [handleCreate_arr himg hne, createMain_new hnone]
  refine ⟨rfl, rfl, ?_, rfl, rfl, ?_, ?_, ?_, ?_⟩
  · simp [getGallery, putQuota, putGallery]
  · intro t ht htne
    simp [mkGalleryRecord, ht, jsOrStr_some_ne _ htne]
  · rintro (ht | ht) <;> simp [mkGalleryRecord, ht, jsOrStr]
  · intro a ha hane
    simp [mkGalleryRecord, ha, jsOrStr_some_ne _ hane]
  · rintro (ha | ha) <;> simp [mkGalleryRecord, ha, jsOrStr]

/-- Witness for the amended C2 at a request with absent title and author
and mixed image values. -/
theorem create_then_get_amended_witness :
    isSuccess
        (handleCreateGallery reqMixed "fz" 13 "o" "d" noFault
          emptyKV).1 = true
    ∧ (handleCreateGallery reqMixed "fz" 13 "o" "d" noFault emptyKV).1 =
        CreateResult.created (resolveId reqMixed "fz")
          (galleryUrl "o" (resolveId reqMixed "fz"))
    ∧ getGallery
          (handleCreateGallery reqMixed "fz" 13 "o" "d" noFault
            emptyKV).2.1 (resolveId reqMixed "fz") =
        some (mkGalleryRecord reqMixed (resolveId reqMixed "fz")
          [JVal.jnum 0, JVal.jstr ""] 13)
    ∧ (mkGalleryRecord reqMixed (resolveId reqMixed "fz")
          [JVal.jnum 0, JVal.jstr ""] 13).images =
        [JVal.jnum 0, JVal.jstr ""]
    ∧ (mkGalleryRecord reqMixed (resolveId reqMixed "fz")
          [JVal.jnum 0, JVal.jstr ""] 13).image_count =
        ([JVal.jnum 0, JVal.jstr ""] : List JVal).length
    ∧ (∀ t, reqMixed.title = some t → t ≠ "" →
        (mkGalleryRecord reqMixed (resolveId reqMixed "fz")
          [JVal.jnum 0, JVal.jstr ""] 13).title = t)
    ∧ ((reqMixed.title = none ∨ reqMixed.title = some "") →
        (mkGalleryRecord reqMixed (resolveId reqMixed "fz")
          [JVal.jnum 0, JVal.jstr ""] 13).title = "图集")
    ∧ (∀ a, reqMixed.author = some a → a ≠ "" →
        (mkGalleryRecord reqMixed (resolveId reqMixed "fz")
          [JVal.jnum 0, JVal.jstr ""] 13).author = a)
    ∧ ((reqMixed.author = none ∨ reqMixed.author = some "") →
        (mkGalleryRecord reqMixed (resolveId reqMixed "fz")
          [JVal.jnum 0, JVal.jstr ""] 13).author = "未知") :=
  create_then_get_amended reqMixed "fz" 13 "o" "d" emptyKV
    [JVal.jnum 0, JVal.jstr ""] rfl (by decide) rfl

/-- Counterexample to C3 as stated: with the gallery write succeeding and
the quota-counter read failing, create returns SERVER_ERROR, not a
success result, even though the gallery record was stored. -/
theorem quota_fail_counterexample :
    (handleCreateGallery reqU "f" 7 "o" "d" ⟨none, true, false⟩
        emptyKV).1 = CreateResult.serverError
    ∧ isSuccess
        (handleCreateGallery reqU "f" 7 "o" "d" ⟨none, true, false⟩
          emptyKV).1 = false
    ∧ (getGallery
          (handleCreateGallery reqU "f" 7 "o" "d" ⟨none, true, false⟩
            emptyKV).2.1 "gid").isSome = true := by
  refine ⟨?_, ?_, ?_⟩ <;> decide

/-- Claim C3 as amended: if the quota-counter read or write fails after
the gallery record's own write succeeded, create returns SERVER_ERROR
(the exception propagates to the generic handler) instead of success,
but the stored gallery record is not rolled back — it remains stored and
readable — and the quota counter is left unchanged. -/
theorem quota_fail_amended :
    ∀ (req : CreateReq) (fresh : String) (now : Nat)
      (origin dateKey : String) (st : KVState) (imgs : List JVal)
      (qg qp : Bool),
      req.images = ImagesField.arr imgs → imgs ≠ [] →
      st.galleries (galleryKey (resolveId req fresh)) = none →
      (qg = true ∨ qp = true) →
      (handleCreateGallery req fresh now origin dateKey ⟨none, qg, qp⟩
          st).1 = CreateResult.serverError
      ∧ getGallery
            (handleCreateGallery req fresh now origin dateKey
              ⟨none, qg, qp⟩ st).2.1 (resolveId req fresh) =
          some (mkGalleryRecord req (resolveId req fresh) imgs now)
      ∧ (handleCreateGallery req fresh now origin dateKey ⟨none, qg, qp⟩
          st).2.1.quotas = st.quotas := by
  intro req fresh now origin dateKey st imgs qg qp himg hne hnone hq
  rw [handleCreate_arr himg hne, createMain_quotaFault hnone imgs now
    origin dateKey hq]
  refine ⟨rfl, ?_, rfl⟩
  simp [getGallery, putGallery]

/-- Witness for the amended C3 with a failing quota-counter write. -/
theorem quota_fail_amended_witness :
    (handleCreateGallery reqU "f" 7 "o" "d" ⟨none, false, true⟩
        emptyKV).1 = CreateResult.serverError
    ∧ getGallery
          (handleCreateGallery reqU "f" 7 "o" "d" ⟨none, false, true⟩
            emptyKV).2.1 (resolveId reqU "f") =
        some (mkGalleryRecord reqU (resolveId reqU "f")
          [JVal.jstr "u1", JVal.jstr "u2"] 7)
    ∧ (handleCreateGallery reqU "f" 7 "o" "d" ⟨none, false, true⟩
        emptyKV).2.1.quotas = emptyKV.quotas :=
  quota_fail_amended reqU "f" 7 "o" "d" emptyKV
    [JVal.jstr "u1", JVal.jstr "u2"] false true rfl (by decide) rfl
    (Or.inr rfl)

theorem promiseAll_none {reads : List PlazaRead}
    (h : Except.error () ∈ reads) : promiseAll reads = none := by
  induction reads with
  | nil => cases h
  | cons r t ih =>
      cases r with
      | error e => rfl
      | ok v =>
          have ht : Except.error () ∈ t := by
            rcases List.mem_cons.mp h with heq | hmem
            · cases heq
            · exact hmem
          rw [promiseAll, ih ht]
          rfl

/-- Counterexample to C4 as stated: with one valid record and one failed
read, the listing fails as a whole (the error page) instead of returning
the remaining valid record; the same single valid read alone does return
the record. -/
theorem plaza_counterexample :
    handleGalleryPlaza [Except.ok (some entryA), Except.error ()] =
        Except.error ()
    ∧ handleGalleryPlaza [Except.ok (some entryA)] =
        Except.ok [entryA] := by
  constructor <;> rfl

/-- Claim C4 as amended: per-key reads that succeed with no record or
with a record lacking a truthy id are excluded and the listing returns
the remaining records sorted by created descending (a permutation of the
valid entries); but an individual read that fails — the promise rejects,
including when the stored value is not valid JSON — makes the whole
listing fail with the error page rather than returning the remaining
records. -/
theorem plaza_listing :
    (∀ (reads : List PlazaRead) (gs : List (Option PlazaEntry)),
        promiseAll reads = some gs →
        handleGalleryPlaza reads =
          Except.ok (sortGalleries ((gs.filterMap id).filter idTruthy))
        ∧ List.Sorted plazaOrd
            (sortGalleries ((gs.filterMap id).filter idTruthy))
        ∧ (sortGalleries ((gs.filterMap id).filter idTruthy)).Perm
            ((gs.filterMap id).filter idTruthy)
        ∧ (∀ e, e ∈ sortGalleries ((gs.filterMap id).filter idTruthy) ↔
            some e ∈ gs ∧ idTruthy e = true))
    ∧ (∀ reads : List PlazaRead, Except.error () ∈ reads →
        handleGalleryPlaza reads = Except.error ()) := by
  constructor
  · intro reads gs hp
    refine ⟨?_, List.sorted_insertionSort plazaOrd _,
      List.perm_insertionSort plazaOrd _, ?_⟩
    · unfold handleGalleryPlaza
      rw [hp]
    · intro e
      simp [sortGalleries, List.mem_filter, List.mem_filterMap]
  · intro reads h
    unfold handleGalleryPlaza
    rw [promiseAll_none h]

/-- Witness for C4's amendment: a concrete listing with a missing record
and an id-less record excluded, and a concrete failing listing. -/
theorem plaza_listing_witness :
    (handleGalleryPlaza
        [Except.ok (some entryA), Except.ok none, Except.ok (some entryB),
         Except.ok (some entryNoId), Except.ok (some entryC)] =
      Except.ok (sortGalleries
        (([some entryA, none, some entryB, some entryNoId,
           some entryC].filterMap id).filter idTruthy)))
    ∧ handleGalleryPlaza [Except.error (), Except.ok (some entryA)] =
        Except.error () :=
  ⟨(plaza_listing.1
      [Except.ok (some entryA), Except.ok none, Except.ok (some entryB),
       Except.ok (some entryNoId), Except.ok (some entryC)]
      [some entryA, none, some entryB, some entryNoId, some entryC]
      rfl).1,
    plaza_listing.2 [Except.error (), Except.ok (some entryA)]
      (List.Mem.head _)⟩

end GalleryWorker
